import Mathlib

/-!
# Verification of the gwpy detector channel module

Shallow embedding of the `Channel` class and the module-level function
`parse_channel_name` from the file `gwpy/detector/channel.py`, together with
proofs about the behaviour the specification describes.

Modelling conventions:
* Python strings are Lean `String`s, manipulated through their `List Char`
  data where convenient.  The regex character classes `[A-Z]` and `\d` are
  modelled as ASCII upper-case letters and ASCII digits.
* A Python value that can flow into a `Channel` metadata slot is an element
  of the small dynamic universe `PyVal`; Python floats are modelled as
  rationals (no claim depends on rounding).
* A raised Python exception is an `Except.error` carrying a `PyErr` tag.
-/

namespace GwpyChannel

/-! ## Definitions -/

/-- The character class of the compiled pattern named re cchar in the
source, `[-_]`. -/
def cchar (c : Char) : Bool :=
  c == '-' || c == '_'

/-- Matching the compiled pattern named re ifo in the source, `[A-Z]\d:`,
at the start of the string: one (ASCII) upper-case letter, one (ASCII)
digit and a colon. -/
def reIfoMatch (s : String) : Bool :=
  match s.data with
  | c0 :: c1 :: c2 :: _ => c0.isUpper && c1.isDigit && c2 == ':'
  | _ => false

/-- Splitting a string once at the first occurrence of `sep` — the
behaviour of the Python one-split string split the source uses on the
colon.  (When `sep` is absent the Python tuple unpacking of the result
would fail; the source only reaches this split after the ifo pattern
guaranteed a colon, so that case is unreachable.) -/
def splitFirst (sep : Char) : List Char → List Char × List Char
  | [] => ([], [])
  | c :: cs =>
      if c = sep then ([], cs)
      else
        let p := splitFirst sep cs
        (c :: p.1, p.2)

/-- Regex split on `[-_]` with a maximum number of splits: split at the
first `n` occurrences of a dash or underscore; once the budget is
exhausted the rest is one final piece. -/
def splitCChar : Nat → List Char → List (List Char)
  | _, [] => [[]]
  | 0, cs => [cs]
  | n + 1, c :: cs =>
      if cchar c then
        [] :: splitCChar n cs
      else
        match splitCChar (n + 1) cs with
        | [] => [[c]]
        | t :: ts => (c :: t) :: ts

/-- The tags-to-components step of `parse_channel_name`: the remainder is
split on `[-_]` with at most 3 splits; entry 0 of the result becomes
`system`, entry 1 (if present) `subsystem`, entry 2 (if present) `signal`.
A fourth entry, when it exists, is never read. -/
def splitTags (cs : List Char) : Option String × Option String × Option String :=
  let tags := splitCChar 3 cs
  (some (String.mk (tags.headD [])),
   (tags.get? 1).map String.mk,
   (tags.get? 2).map String.mk)

/-- The module-level function `parse_channel_name`.  The argument is an
`Option String` so that the Python `None` argument is representable; the
Python falsiness test on the argument is true exactly for `None` and the
empty string. -/
def parse_channel_name (name : Option String) :
    Option String × Option String × Option String × Option String :=
  match name with
  | none => (none, none, none, none)
  | some s =>
      if s.data.isEmpty then (none, none, none, none)
      else if reIfoMatch s then
        let p := splitFirst ':' s.data
        (some (String.mk p.1), splitTags p.2)
      else
        (none, splitTags s.data)

/-- A Python class object (a value satisfying the isinstance-of-type
test).  `typeT` is the builtin `type` itself, which is its own instance. -/
inductive PyTypeTag where
  | floatT
  | intT
  | strT
  | typeT
  deriving DecidableEq

/-- The dynamic universe of Python values the channel metadata can hold.
Floats are modelled as rationals; `unitV u` is an astropy `Unit` with name
`u`; `quantity v u` an astropy `Quantity`. -/
inductive PyVal where
  | none
  | int (n : Int)
  | flt (q : Rat)
  | str (s : String)
  | typ (t : PyTypeTag)
  | unitV (u : String)
  | quantity (v : Rat) (u : String)
  deriving DecidableEq

/-- Python exceptions raised by the modelled code paths. -/
inductive PyErr where
  | typeError
  | valueError
  | attributeError
  | keyError
  deriving DecidableEq

/-- Python truthiness on the modelled universe. -/
def truthy : PyVal → Bool
  | .none => false
  | .int n => n != 0
  | .flt q => q != 0
  | .str s => !s.isEmpty
  | .typ _ => true
  | .unitV _ => true
  | .quantity v _ => v != 0

/-- The Python short-circuit disjunction of two values: the first if it is
truthy, otherwise the second. -/
def pyOr (x y : PyVal) : PyVal :=
  if truthy x then x else y

/-- Whether a value is a class object — the isinstance-of-type test the
dtype setter performs. -/
def isTypeInstance : PyVal → Bool
  | .typ _ => true
  | _ => false

/-- Conversion of a value to a Python float.  Defined on the numeric
values the source can feed it; conversion of numeric strings is not
modelled (no claim exercises it), so a string conversion errors as a
non-numeric string would. -/
def floatOf : PyVal → Except PyErr Rat
  | .int n => .ok (n : Rat)
  | .flt q => .ok q
  | .str _ => .error .valueError
  | _ => .error .typeError

/-- The body of the `sample_rate` setter: an astropy `Unit` is stored as
is, `None` is stored as `None`, anything else becomes a Hertz `Quantity`
of its float value. -/
def sampleRateSetter : PyVal → Except PyErr PyVal
  | .unitV u => .ok (.unitV u)
  | .none => .ok .none
  | r =>
      match floatOf r with
      | .ok f => .ok (.quantity f "Hz")
      | .error e => .error e

/-- The body of the `unit` setter: `None` stays `None`, otherwise the
value goes through the astropy `Unit` constructor — a `Unit` passes
through, a string is taken as a unit name (parse failures of exotic
strings are not modelled), anything else is rejected. -/
def unitSetter : PyVal → Except PyErr PyVal
  | .none => .ok .none
  | .unitV u => .ok (.unitV u)
  | .str s => .ok (.unitV s)
  | _ => .error .valueError

/-- The body of the `model` setter, which stores the Python expression
`mdl and mdl.lower() or mdl`: a falsy value is stored untouched; a truthy
string is lower-cased; a truthy non-string has no lower method and
raises. -/
def modelSetter (mdl : PyVal) : Except PyErr PyVal :=
  if truthy mdl then
    match mdl with
    | .str s => .ok (.str s.toLower)
    | _ => .error .attributeError
  else .ok mdl

/-- The body of the `dtype` setter: anything that is not a `type` instance
raises a `TypeError` saying the attribute should be a type instance such
as float. -/
def dtypeSetter (t : PyVal) : Except PyErr PyVal :=
  if isTypeInstance t then .ok t else .error .typeError

/-- The state of a `Channel` object after construction: the stored name,
the four components derived by the name setter, and the four metadata
slots. -/
structure Channel where
  name : String
  ifo : Option String
  system : Option String
  subsystem : Option String
  signal : Option String
  sample_rate : PyVal
  unit : PyVal
  dtype : PyVal
  model : PyVal
  deriving DecidableEq

/-- The `name` setter: the name is stored (the Python `str` of a string is
itself) and the four components are immediately re-derived by
`parse_channel_name` applied to the stored name. -/
def Channel.setName (c : Channel) (n : String) : Channel :=
  let p := parse_channel_name (some n)
  { c with name := n, ifo := p.1, system := p.2.1,
           subsystem := p.2.2.1, signal := p.2.2.2 }

/-- Assignment to `sample_rate` on an existing channel. -/
def Channel.setSampleRate (c : Channel) (r : PyVal) : Except PyErr Channel :=
  match sampleRateSetter r with
  | .ok v => .ok { c with sample_rate := v }
  | .error e => .error e

/-- Assignment to `unit` on an existing channel. -/
def Channel.setUnit (c : Channel) (u : PyVal) : Except PyErr Channel :=
  match unitSetter u with
  | .ok v => .ok { c with unit := v }
  | .error e => .error e

/-- Assignment to `dtype` on an existing channel. -/
def Channel.setDtype (c : Channel) (t : PyVal) : Except PyErr Channel :=
  match dtypeSetter t with
  | .ok v => .ok { c with dtype := v }
  | .error e => .error e

/-- Assignment to `model` on an existing channel. -/
def Channel.setModel (c : Channel) (m : PyVal) : Except PyErr Channel :=
  match modelSetter m with
  | .ok v => .ok { c with model := v }
  | .error e => .error e

/-- The first positional argument of the `Channel` constructor: either
another `Channel` (the copy-constructor path) or a name string. -/
inductive ChArg where
  | chan (c : Channel)
  | str (s : String)

/-- The `Channel` constructor, with keyword defaults `None`.  On the copy
path each keyword falls back, by the Python short-circuit disjunction, to
the corresponding field of the source channel, and the name argument
becomes the name of the source.  The attributes are then set through the
property setters in source order.  Note that the source assigns the
builtin `type` object itself to the dtype attribute, so the computed
dtype argument is never used — this mirrors the line `self.dtype = type`
of the source exactly. -/
def Channel.init (ch : ChArg) (sample_rate unit dtype model : PyVal) :
    Except PyErr Channel :=
  let args :=
    match ch with
    | .chan c =>
        (pyOr sample_rate c.sample_rate, pyOr unit c.unit,
         pyOr dtype c.dtype, pyOr model c.model, c.name)
    | .str s => (sample_rate, unit, dtype, model, s)
  match args with
  | (sr, un, _dt, md, nm) =>
      let p := parse_channel_name (some nm)
      match sampleRateSetter sr with
      | .error e => .error e
      | .ok srV =>
          match unitSetter un with
          | .error e => .error e
          | .ok unV =>
              match dtypeSetter (PyVal.typ .typeT) with
              | .error e => .error e
              | .ok dtV =>
                  match modelSetter md with
                  | .error e => .error e
                  | .ok mdV =>
                      .ok { name := nm, ifo := p.1, system := p.2.1,
                            subsystem := p.2.2.1, signal := p.2.2.2,
                            sample_rate := srV, unit := unV,
                            dtype := dtV, model := mdV }

/-- The host and port resolution step of the fetch method.  The guard is
the Python condition `not host or port`; when it holds, the ifo of the
channel is looked up in the default host directory of the nds module (a
`KeyError` when the ifo is not a key) and each of host and port is filled
with the directory value by the short-circuit disjunction.  The resolved
pair is what the connection is then opened with.  The directory itself
lives in the nds module, outside this file, and is a parameter here. -/
def fetchResolve (defaultHosts : Option String → Option (PyVal × PyVal))
    (ifo : Option String) (host port : PyVal) : Except PyErr (PyVal × PyVal) :=
  if !truthy host || truthy port then
    match defaultHosts ifo with
    | Option.none => .error .keyError
    | some (dh, dp) => .ok (pyOr host dh, pyOr port dp)
  else
    .ok (host, port)

/-- The decomposition invariant: the four stored components are exactly
`parse_channel_name` of the stored name. -/
def componentsConsistent (c : Channel) : Prop :=
  (c.ifo, c.system, c.subsystem, c.signal) = parse_channel_name (some c.name)

/-- A concrete channel used as a test fixture: the state of a channel
constructed from the name string L1:PSL-ISS_PDA whose `dtype` attribute
is subsequently assigned `float`. -/
def chanFloat : Channel :=
  { name := "L1:PSL-ISS_PDA", ifo := some "L1", system := some "PSL",
    subsystem := some "ISS", signal := some "PDA",
    sample_rate := .none, unit := .none, dtype := .typ .floatT, model := .none }

/-- A concrete host directory, standing in for the default host directory
of the nds module, with a single entry mapping the ifo L1 to the pair of
the host nds.ligo-la.caltech.edu and the port 31200. -/
def exampleHosts : Option String → Option (PyVal × PyVal) :=
  fun i =>
    if i = some "L1" then some (.str "nds.ligo-la.caltech.edu", .int 31200)
    else Option.none

/-! ## Computation lemmas for the split helpers -/

theorem upper_ne_colon (c : Char) (h : c.isUpper = true) : ¬ (c = ':') := by
  intro heq
  subst heq
  simp [Char.isUpper] at h

theorem digit_ne_colon (c : Char) (h : c.isDigit = true) : ¬ (c = ':') := by
  intro heq
  subst heq
  simp [Char.isDigit] at h

theorem splitFirst_colon (c0 c1 : Char) (rest : List Char)
    (h0 : ¬ (c0 = ':')) (h1 : ¬ (c1 = ':')) :
    splitFirst ':' (c0 :: c1 :: ':' :: rest) = ([c0, c1], rest) := by
  simp [splitFirst, h0, h1]

/-- A piece with no split characters is returned whole, whatever the
budget. -/
theorem splitCChar_no_sep (cs : List Char) (h : ∀ c ∈ cs, cchar c = false) :
    ∀ n, splitCChar n cs = [cs] := by
  induction cs with
  | nil => intro n; cases n <;> rfl
  | cons c cs ih =>
      intro n
      cases n with
      | zero => rfl
      | succ k =>
          have hc : cchar c = false := h c (by simp)
          have hrest : ∀ x ∈ cs, cchar x = false := fun x hx => h x (by simp [hx])
          simp [splitCChar, hc, ih hrest (k + 1)]

/-- With budget left, splitting peels off the piece before the first split
character. -/
theorem splitCChar_sep (pre : List Char) (h : ∀ c ∈ pre, cchar c = false)
    (s : Char) (hs : cchar s = true) (rest : List Char) (n : Nat) :
    splitCChar (n + 1) (pre ++ s :: rest) = pre :: splitCChar n rest := by
  induction pre with
  | nil => simp [splitCChar, hs]
  | cons c pre ih =>
      have hc : cchar c = false := h c (by simp)
      have hpre : ∀ x ∈ pre, cchar x = false := fun x hx => h x (by simp [hx])
      simp [splitCChar, hc, ih hpre]

/-- With the budget exhausted the whole remainder is one piece. -/
theorem splitCChar_zero (cs : List Char) : splitCChar 0 cs = [cs] := by
  cases cs <;> rfl

/-- The ifo pattern holds exactly when the string starts with an
upper-case letter, a digit and a colon. -/
theorem reIfoMatch_iff (s : String) :
    reIfoMatch s = true ↔
      ∃ L D rest, s.data = L :: D :: ':' :: rest ∧
        L.isUpper = true ∧ D.isDigit = true := by
  constructor
  · intro h
    unfold reIfoMatch at h
    match hd : s.data with
    | [] => rw [hd] at h; exact absurd h (by simp)
    | [c0] => rw [hd] at h; exact absurd h (by simp)
    | [c0, c1] => rw [hd] at h; exact absurd h (by simp)
    | c0 :: c1 :: c2 :: rest =>
        rw [hd] at h
        simp only [Bool.and_eq_true, beq_iff_eq] at h
        exact ⟨c0, c1, rest, by rw [h.2], h.1.1, h.1.2⟩
  · rintro ⟨L, D, rest, hd, hL, hD⟩
    unfold reIfoMatch
    rw [hd]
    simp [hL, hD]

/-- The test fixture is reachable through the modelled interface:
construct from the name string, then assign `float` to `dtype`. -/
theorem chanFloat_reachable :
    (Channel.init (.str "L1:PSL-ISS_PDA") .none .none .none .none).bind
      (fun c => c.setDtype (.typ .floatT)) = .ok chanFloat := rfl

/-! ## The claims -/

/-- C1: a name of the canonical form IFO colon SYS dash SUB underscore SIG
— one upper-case letter, one digit, a colon, then three separator-free
tokens joined by a dash or underscore each — parses to exactly the 4-tuple
of IFO, SYS, SUB and SIG; an absent (`None`) or empty name parses to four
absent components. -/
theorem parse_canonical_name :
    (∀ (L D s₁ s₂ : Char) (sys sub sig : List Char),
        L.isUpper = true → D.isDigit = true →
        cchar s₁ = true → cchar s₂ = true →
        (∀ c ∈ sys, cchar c = false) → (∀ c ∈ sub, cchar c = false) →
        (∀ c ∈ sig, cchar c = false) →
        parse_channel_name
            (some (String.mk (L :: D :: ':' :: (sys ++ s₁ :: (sub ++ s₂ :: sig))))) =
          (some (String.mk [L, D]), some (String.mk sys),
           some (String.mk sub), some (String.mk sig))) ∧
    parse_channel_name Option.none =
      (Option.none, Option.none, Option.none, Option.none) ∧
    parse_channel_name (some "") =
      (Option.none, Option.none, Option.none, Option.none) := by
  refine ⟨?_, rfl, rfl⟩
  intro L D s₁ s₂ sys sub sig hL hD hs₁ hs₂ hsys hsub hsig
  have hifo : reIfoMatch
      (String.mk (L :: D :: ':' :: (sys ++ s₁ :: (sub ++ s₂ :: sig)))) = true := by
    simp [reIfoMatch, hL, hD]
  have hsplit := splitFirst_colon L D (sys ++ s₁ :: (sub ++ s₂ :: sig))
      (upper_ne_colon L hL) (digit_ne_colon D hD)
  have h1 : splitCChar 3 (sys ++ s₁ :: (sub ++ s₂ :: sig)) =
      sys :: splitCChar 2 (sub ++ s₂ :: sig) :=
    splitCChar_sep sys hsys s₁ hs₁ _ 2
  have h2 : splitCChar 2 (sub ++ s₂ :: sig) = sub :: splitCChar 1 sig :=
    splitCChar_sep sub hsub s₂ hs₂ _ 1
  have h3 : splitCChar 1 sig = [sig] := splitCChar_no_sep sig hsig 1
  have htags : splitCChar 3 (sys ++ s₁ :: (sub ++ s₂ :: sig)) = [sys, sub, sig] := by
    rw [h1, h2, h3]
  simp [parse_channel_name, hifo, hsplit, splitTags, htags]

/-- C1 witness at the name L1:PSL-ISS_PDA. -/
theorem parse_canonical_name_witness :
    parse_channel_name
        (some (String.mk
          ('L' :: '1' :: ':' ::
            (['P', 'S', 'L'] ++ '-' :: (['I', 'S', 'S'] ++ '_' :: ['P', 'D', 'A']))))) =
      (some (String.mk ['L', '1']), some (String.mk ['P', 'S', 'L']),
       some (String.mk ['I', 'S', 'S']), some (String.mk ['P', 'D', 'A'])) :=
  parse_canonical_name.1 'L' '1' '-' '_' ['P', 'S', 'L'] ['I', 'S', 'S'] ['P', 'D', 'A']
    (by decide) (by decide) (by decide) (by decide) (by decide) (by decide) (by decide)

/-- C2 counterexample: on the name X1:SYS-SUB_SIG-EXT, whose remainder has
four tokens, the text after the third separator is NOT retained as part of
the signal component: the parser returns signal SIG, not SIG-EXT. -/
theorem parse_fourth_token_cex :
    parse_channel_name (some "X1:SYS-SUB_SIG-EXT") =
      (some "X1", some "SYS", some "SUB", some "SIG") ∧
    ¬ ((parse_channel_name (some "X1:SYS-SUB_SIG-EXT")).2.2.2 = some "SIG-EXT") := by
  constructor
  · decide
  · decide

/-- A remainder of four or more tokens splits, under the budget of 3, into
the first three tokens and one final piece holding everything after the
third separator. -/
theorem splitCChar_four (s₁ s₂ s₃ : Char) (sys sub sig extra : List Char)
    (hs₁ : cchar s₁ = true) (hs₂ : cchar s₂ = true) (hs₃ : cchar s₃ = true)
    (hsys : ∀ c ∈ sys, cchar c = false) (hsub : ∀ c ∈ sub, cchar c = false)
    (hsig : ∀ c ∈ sig, cchar c = false) :
    splitCChar 3 (sys ++ s₁ :: (sub ++ s₂ :: (sig ++ s₃ :: extra))) =
      [sys, sub, sig, extra] := by
  have h1 : splitCChar 3 (sys ++ s₁ :: (sub ++ s₂ :: (sig ++ s₃ :: extra))) =
      sys :: splitCChar 2 (sub ++ s₂ :: (sig ++ s₃ :: extra)) :=
    splitCChar_sep sys hsys s₁ hs₁ _ 2
  have h2 : splitCChar 2 (sub ++ s₂ :: (sig ++ s₃ :: extra)) =
      sub :: splitCChar 1 (sig ++ s₃ :: extra) :=
    splitCChar_sep sub hsub s₂ hs₂ _ 1
  have h3 : splitCChar 1 (sig ++ s₃ :: extra) = sig :: splitCChar 0 extra :=
    splitCChar_sep sig hsig s₃ hs₃ _ 0
  rw [h1, h2, h3, splitCChar_zero]

/-- C2 amended: for every name whose remainder has four or more tokens —
whether the name carries an IFO prefix (first conjunct) or not (second
conjunct) — the single combined split on dash or underscore (at most 3
splits) assigns token 0 to `system`, token 1 to `subsystem` and token 2 to
`signal`; the 4th piece — everything after the third separator, not
further decomposed — is discarded and appears in no component. -/
theorem parse_fourth_token_discarded :
    (∀ (L D s₁ s₂ s₃ : Char) (sys sub sig extra : List Char),
      L.isUpper = true → D.isDigit = true →
      cchar s₁ = true → cchar s₂ = true → cchar s₃ = true →
      (∀ c ∈ sys, cchar c = false) → (∀ c ∈ sub, cchar c = false) →
      (∀ c ∈ sig, cchar c = false) →
      parse_channel_name
          (some (String.mk
            (L :: D :: ':' :: (sys ++ s₁ :: (sub ++ s₂ :: (sig ++ s₃ :: extra)))))) =
        (some (String.mk [L, D]), some (String.mk sys),
         some (String.mk sub), some (String.mk sig))) ∧
    (∀ (s₁ s₂ s₃ : Char) (sys sub sig extra : List Char),
      reIfoMatch (String.mk (sys ++ s₁ :: (sub ++ s₂ :: (sig ++ s₃ :: extra)))) = false →
      cchar s₁ = true → cchar s₂ = true → cchar s₃ = true →
      (∀ c ∈ sys, cchar c = false) → (∀ c ∈ sub, cchar c = false) →
      (∀ c ∈ sig, cchar c = false) →
      parse_channel_name
          (some (String.mk (sys ++ s₁ :: (sub ++ s₂ :: (sig ++ s₃ :: extra))))) =
        (Option.none, some (String.mk sys),
         some (String.mk sub), some (String.mk sig))) := by
  constructor
  · intro L D s₁ s₂ s₃ sys sub sig extra hL hD hs₁ hs₂ hs₃ hsys hsub hsig
    have hifo : reIfoMatch
        (String.mk (L :: D :: ':' ::
          (sys ++ s₁ :: (sub ++ s₂ :: (sig ++ s₃ :: extra))))) = true := by
      simp [reIfoMatch, hL, hD]
    have hsplit := splitFirst_colon L D (sys ++ s₁ :: (sub ++ s₂ :: (sig ++ s₃ :: extra)))
        (upper_ne_colon L hL) (digit_ne_colon D hD)
    have htags := splitCChar_four s₁ s₂ s₃ sys sub sig extra hs₁ hs₂ hs₃ hsys hsub hsig
    simp [parse_channel_name, hifo, hsplit, splitTags, htags]
  · intro s₁ s₂ s₃ sys sub sig extra hifo hs₁ hs₂ hs₃ hsys hsub hsig
    have hemp : (sys ++ s₁ :: (sub ++ s₂ :: (sig ++ s₃ :: extra))).isEmpty = false := by
      cases sys <;> rfl
    have htags := splitCChar_four s₁ s₂ s₃ sys sub sig extra hs₁ hs₂ hs₃ hsys hsub hsig
    simp [parse_channel_name, hemp, hifo, splitTags, htags]

/-- C2 witness at the prefixed name X1:SYS-SUB_SIG-EXT and the
prefix-free name a-b_c-d-e (whose 4th piece even contains a further
separator). -/
theorem parse_fourth_token_discarded_witness :
    (parse_channel_name
        (some (String.mk
          ('X' :: '1' :: ':' ::
            (['S', 'Y', 'S'] ++ '-' ::
              (['S', 'U', 'B'] ++ '_' :: (['S', 'I', 'G'] ++ '-' :: ['E', 'X', 'T']))))))
      = (some (String.mk ['X', '1']), some (String.mk ['S', 'Y', 'S']),
         some (String.mk ['S', 'U', 'B']), some (String.mk ['S', 'I', 'G']))) ∧
    (parse_channel_name
        (some (String.mk (['a'] ++ '-' :: (['b'] ++ '_' :: (['c'] ++ '-' :: ['d', '-', 'e'])))))
      = (Option.none, some (String.mk ['a']),
         some (String.mk ['b']), some (String.mk ['c']))) :=
  ⟨parse_fourth_token_discarded.1 'X' '1' '-' '_' '-'
      ['S', 'Y', 'S'] ['S', 'U', 'B'] ['S', 'I', 'G'] ['E', 'X', 'T']
      (by decide) (by decide) (by decide) (by decide) (by decide)
      (by decide) (by decide) (by decide),
   parse_fourth_token_discarded.2 '-' '_' '-'
      ['a'] ['b'] ['c'] ['d', '-', 'e']
      (by decide) (by decide) (by decide) (by decide)
      (by decide) (by decide) (by decide)⟩

/-- C3: for a non-empty name that begins with an upper-case letter, a
digit and a colon, `ifo` is the two characters before the colon and the
text after the colon is the remainder handed to the token split; for every
other non-empty name, `ifo` is absent and the whole string is the
remainder. -/
theorem parse_ifo_split :
    ∀ s : String, s.data ≠ [] →
      (∀ (L D : Char) (rest : List Char),
          s.data = L :: D :: ':' :: rest → L.isUpper = true → D.isDigit = true →
          parse_channel_name (some s) =
            (some (String.mk [L, D]), splitTags rest)) ∧
      (reIfoMatch s = false →
        parse_channel_name (some s) = (Option.none, splitTags s.data)) := by
  intro s hne
  constructor
  · intro L D rest hd hL hD
    have hifo : reIfoMatch s = true :=
      (reIfoMatch_iff s).mpr ⟨L, D, rest, hd, hL, hD⟩
    have hsplit : splitFirst ':' s.data = ([L, D], rest) := by
      rw [hd]
      exact splitFirst_colon L D rest (upper_ne_colon L hL) (digit_ne_colon D hD)
    have hemp : s.data.isEmpty = false := by
      rw [hd]; rfl
    simp [parse_channel_name, hemp, hifo, hsplit]
  · intro hifo
    have hemp : s.data.isEmpty = false := by
      cases hd : s.data with
      | nil => exact absurd hd hne
      | cons c cs => rfl
    simp [parse_channel_name, hemp, hifo]

/-- C3 witness: the two branches, at the names H1:CAL-X and noifo-a_b. -/
theorem parse_ifo_split_witness :
    parse_channel_name (some "H1:CAL-X") =
      (some (String.mk ['H', '1']), splitTags ['C', 'A', 'L', '-', 'X']) ∧
    parse_channel_name (some "noifo-a_b") =
      (Option.none, splitTags ("noifo-a_b" : String).data) :=
  ⟨(parse_ifo_split "H1:CAL-X" (by decide)).1 'H' '1' ['C', 'A', 'L', '-', 'X']
      (by decide) (by decide) (by decide),
   (parse_ifo_split "noifo-a_b" (by decide)).2 (by decide)⟩

/-- C4: the four components are re-derived as `parse_channel_name` of the
name by every assignment of the name — at construction and by later
assignment — and no other operation touches them, so after every mutation
the components agree with the decomposition of the current name. -/
theorem components_always_rederived :
    (∀ (c : Channel) (n : String), componentsConsistent (c.setName n)) ∧
    (∀ (ch : ChArg) (sr un dt md : PyVal) (c : Channel),
        Channel.init ch sr un dt md = .ok c → componentsConsistent c) ∧
    (∀ (c : Channel) (v : PyVal) (c' : Channel),
        c.setSampleRate v = .ok c' → componentsConsistent c → componentsConsistent c') ∧
    (∀ (c : Channel) (v : PyVal) (c' : Channel),
        c.setUnit v = .ok c' → componentsConsistent c → componentsConsistent c') ∧
    (∀ (c : Channel) (v : PyVal) (c' : Channel),
        c.setDtype v = .ok c' → componentsConsistent c → componentsConsistent c') ∧
    (∀ (c : Channel) (v : PyVal) (c' : Channel),
        c.setModel v = .ok c' → componentsConsistent c → componentsConsistent c') := by
  refine ⟨fun c n => rfl, ?_, ?_, ?_, ?_, ?_⟩
  · intro ch sr un dt md c h
    unfold Channel.init at h
    cases ch <;>
    · dsimp only at h
      split at h <;> try (exact Except.noConfusion h)
      split at h <;> try (exact Except.noConfusion h)
      split at h <;> try (exact Except.noConfusion h)
      split at h <;> try (exact Except.noConfusion h)
      injection h with h
      subst h
      rfl
  · intro c v c' h hc
    unfold Channel.setSampleRate at h
    split at h <;> try (exact Except.noConfusion h)
    injection h with h
    subst h
    exact hc
  · intro c v c' h hc
    unfold Channel.setUnit at h
    split at h <;> try (exact Except.noConfusion h)
    injection h with h
    subst h
    exact hc
  · intro c v c' h hc
    unfold Channel.setDtype at h
    split at h <;> try (exact Except.noConfusion h)
    injection h with h
    subst h
    exact hc
  · intro c v c' h hc
    unfold Channel.setModel at h
    split at h <;> try (exact Except.noConfusion h)
    injection h with h
    subst h
    exact hc

/-- C4 witness: the invariant after renaming the fixture channel, and on
the channel the constructor builds from the name X1:SYS-SUB_SIG. -/
theorem components_always_rederived_witness :
    componentsConsistent (chanFloat.setName "H1:CAL-DARM_ERR") ∧
    componentsConsistent
      { name := "X1:SYS-SUB_SIG", ifo := some "X1", system := some "SYS",
        subsystem := some "SUB", signal := some "SIG",
        sample_rate := .none, unit := .none, dtype := .typ .typeT,
        model := .none } :=
  ⟨components_always_rederived.1 chanFloat "H1:CAL-DARM_ERR",
   components_always_rederived.2.1 (.str "X1:SYS-SUB_SIG") .none .none .none .none _ rfl⟩

/-- C5: the constructor assigns the builtin `type` object instead of the
computed dtype argument, so a copy does NOT inherit the dtype of the
source (here `float`).  The other metadata fields and the name are
inherited as the claim says. -/
theorem copy_does_not_inherit_dtype :
    Channel.init (.chan chanFloat) .none .none .none .none =
      .ok { chanFloat with dtype := .typ .typeT } ∧
    chanFloat.dtype = .typ .floatT ∧
    PyVal.typ .typeT ≠ PyVal.typ .floatT := by
  refine ⟨rfl, rfl, by decide⟩

/-- C6: constructing a channel with the non-type dtype argument 5 does NOT
raise a `TypeError` — the argument is discarded and construction succeeds
— although direct assignment of 5 to the dtype attribute does raise
`TypeError`, as the claim says. -/
theorem bad_dtype_argument_not_rejected :
    Channel.init (.str "X1:SYS-SUB_SIG") .none .none (.int 5) .none =
      .ok { name := "X1:SYS-SUB_SIG", ifo := some "X1", system := some "SYS",
            subsystem := some "SUB", signal := some "SIG",
            sample_rate := .none, unit := .none, dtype := .typ .typeT,
            model := .none } ∧
    chanFloat.setDtype (.int 5) = .error .typeError := ⟨rfl, rfl⟩

/-- C7 counterexample: assigning `None` to the dtype attribute is NOT
accepted — the setter raises `TypeError`, because `None` is not a `type`
instance. -/
theorem dtype_none_rejected_cex :
    chanFloat.setDtype PyVal.none = .error .typeError ∧
    chanFloat.setDtype PyVal.none ≠ .ok { chanFloat with dtype := PyVal.none } :=
  ⟨rfl, fun h => Except.noConfusion h⟩

/-- C7 amended: the dtype setter rejects `None` with a `TypeError` on
every channel; the dtype attribute cannot be reset to absent by
assignment. -/
theorem dtype_none_raises (c : Channel) :
    c.setDtype PyVal.none = .error .typeError := rfl

/-- C8: the guard of the fetch resolution, the Python condition
`not host or port`, makes the resolution asymmetric.  With host specified
and port unspecified no lookup happens, so the port is NOT resolved from
the host directory (first conjunct — the divergence from the claim); with
both unspecified both are resolved; and with only port specified the host
is resolved while the given port is kept. -/
theorem fetch_port_not_resolved :
    fetchResolve exampleHosts (some "L1") (.str "myhost") .none =
      .ok (.str "myhost", PyVal.none) ∧
    fetchResolve exampleHosts (some "L1") .none .none =
      .ok (.str "nds.ligo-la.caltech.edu", .int 31200) ∧
    fetchResolve exampleHosts (some "L1") .none (.int 8088) =
      .ok (.str "nds.ligo-la.caltech.edu", .int 8088) := ⟨rfl, rfl, rfl⟩

/-- C9: `parse_channel_name` is deterministic — equal inputs give equal
results — and the only state change it is involved in is the derived
component assignment in the name setter: `setName` leaves every metadata
slot of the channel untouched. -/
theorem parse_pure_deterministic :
    (∀ n₁ n₂ : Option String, n₁ = n₂ →
        parse_channel_name n₁ = parse_channel_name n₂) ∧
    (∀ (c : Channel) (n : String),
        (c.setName n).sample_rate = c.sample_rate ∧
        (c.setName n).unit = c.unit ∧
        (c.setName n).dtype = c.dtype ∧
        (c.setName n).model = c.model) :=
  ⟨fun _ _ h => by rw [h], fun c n => ⟨rfl, rfl, rfl, rfl⟩⟩

/-- C9 witness at the name L1:PSL-ISS_PDA and the fixture channel. -/
theorem parse_pure_deterministic_witness :
    parse_channel_name (some "L1:PSL-ISS_PDA") =
      parse_channel_name (some "L1:PSL-ISS_PDA") ∧
    (chanFloat.setName "H1:X").dtype = chanFloat.dtype :=
  ⟨parse_pure_deterministic.1 (some "L1:PSL-ISS_PDA") (some "L1:PSL-ISS_PDA") rfl,
   (parse_pure_deterministic.2 chanFloat "H1:X").2.2.1⟩

/-- C10: whatever the first argument and the metadata arguments are, a
successfully constructed channel always has the builtin `type` object as
its dtype: the dtype argument of the constructor is discarded. -/
theorem init_dtype_always_type (ch : ChArg) (sr un dt md : PyVal) (c : Channel)
    (h : Channel.init ch sr un dt md = .ok c) : c.dtype = .typ .typeT := by
  unfold Channel.init at h
  cases ch <;>
  · dsimp only at h
    split at h <;> try (exact Except.noConfusion h)
    split at h <;> try (exact Except.noConfusion h)
    split at h <;> try (exact Except.noConfusion h)
    split at h <;> try (exact Except.noConfusion h)
    injection h with h
    subst h
    simp_all [dtypeSetter, isTypeInstance]

/-- C10 witness: constructing with the (invalid) dtype argument 5 yields a
channel whose dtype is the builtin `type`. -/
theorem init_dtype_always_type_witness :
    ({ name := "X1:A-B_C", ifo := some "X1", system := some "A",
       subsystem := some "B", signal := some "C",
       sample_rate := .none, unit := .none, dtype := .typ .typeT,
       model := .none } : Channel).dtype = .typ .typeT :=
  init_dtype_always_type (.str "X1:A-B_C") .none .none (.int 5) .none _ rfl

end GwpyChannel
